import Mathlib

/-!
Verification development for the BaketaCaptureNative capture library
(`src/BaketaCaptureNative`).  The pixel pipeline, the capture-session
operations and the C-callable wrapper layer are shallowly embedded below;
the definitions are translated from `WindowsCaptureSession.cpp` and
`BaketaCaptureNative.cpp`.

Modelling conventions:
* C `int` values become `Int`; unsigned pixel dimensions and byte counts
  (`UINT`) become `Nat` (overflow of 32-bit arithmetic is not modelled:
  the claims are about window-sized quantities far below `2^31`).
* `float` arithmetic is modelled by exact rational arithmetic (`ℚ`);
  the C truncating float-to-int cast becomes `cIntTrunc`.
* Pixel buffers are byte maps `Nat → Nat` (offset to byte value); bytes the
  code never writes are modelled as `0`.
* Platform calls that can fail for external reasons (CreateForWindow,
  window validation, `_aligned_malloc`) are driven by explicit Boolean
  oracles passed as arguments.
-/

/-- `((pixelRowBytes + 15) / 16) * 16` from `ConvertTextureToBGRA`
(WindowsCaptureSession.cpp:513-514): the packed row size rounded up to a
16-byte boundary. -/
def alignedStride16 (pixelW : Nat) : Nat :=
  ((pixelW * 4 + 15) / 16) * 16

/-- `safeStride` from `ConvertTextureToBGRA` (WindowsCaptureSession.cpp:517-518):
the source row pitch if it already reaches the aligned packed stride, else the
aligned packed stride. -/
def safeStride (rowPitch pixelW : Nat) : Nat :=
  if alignedStride16 pixelW ≤ rowPitch then rowPitch else alignedStride16 pixelW

/-- The C truncating cast from a floating value to an integer
(`static_cast<int>` / `static_cast<unsigned char>`): rounds toward zero. -/
def cIntTrunc (q : ℚ) : Int :=
  if 0 ≤ q then ⌊q⌋ else ⌈q⌉

/-- A GPU texture as seen by the pipeline: its descriptor dimensions and the
mapped staging bytes (`mappedResource.pData` with `RowPitch = rowPitch`). -/
structure Texture where
  width : Nat
  height : Nat
  rowPitch : Nat
  data : Nat → Nat

/-- The aspect-preserving final size computed at the top of
`ResizeAndConvertTextureToBGRA` (WindowsCaptureSession.cpp:884-907):
compare the aspect ratios, scale the bounded dimension, truncate, and clamp
both results to a minimum of 1. -/
def finalSize (srcW srcH tW tH : Nat) : Nat × Nat :=
  let srcAspect : ℚ := (srcW : ℚ) / (srcH : ℚ)
  let targetAspect : ℚ := (tW : ℚ) / (tH : ℚ)
  let p : Nat × Nat :=
    if targetAspect < srcAspect then
      (tW, (cIntTrunc ((tW : ℚ) / srcAspect)).toNat)
    else
      ((cIntTrunc ((tH : ℚ) * srcAspect)).toNat, tH)
  (max 1 p.1, max 1 p.2)

/-- The caller-visible frame structure `BaketaCaptureFrame`, in the revision
used by `BaketaCaptureNative.cpp` (which also reads the Issue-193 fields
`originalWidth`/`originalHeight`).  `bgraData` is `none` for a null pixel
pointer. -/
structure BFrame where
  bgraData : Option (Nat → Nat)
  width : Int
  height : Int
  stride : Int
  timestamp : Int
  originalWidth : Int
  originalHeight : Int

/-- The all-zero frame structure. -/
def zeroBFrame : BFrame :=
  { bgraData := none, width := 0, height := 0, stride := 0, timestamp := 0
    originalWidth := 0, originalHeight := 0 }

/-- The row-by-row direct copy of `ConvertTextureToBGRA`
(WindowsCaptureSession.cpp:567-582): each destination row holds
`min (width*4) rowPitch` source bytes followed by zero padding up to the
stride. -/
def directCopyBuf (tex : Texture) (stride : Nat) : Nat → Nat :=
  fun off =>
    let y := off / stride
    let i := off % stride
    if y < tex.height ∧ i < min (tex.width * 4) tex.rowPitch then
      tex.data (y * tex.rowPitch + i)
    else 0

/-- `ConvertTextureToBGRA` (WindowsCaptureSession.cpp:449-620) on the mapped
staging copy `tex`: writes `*stride`, then allocates (oracle `allocOk`) and
fills the output buffer; on allocation failure `*bgraData` has been assigned
the null result of `_aligned_malloc` and the call fails. -/
def convertTextureToBGRA (tex : Texture) (allocOk : Bool) (f : BFrame) :
    Bool × BFrame :=
  let stride := safeStride tex.rowPitch tex.width
  let f1 := { f with stride := (stride : Int) }
  if allocOk then
    (true, { f1 with bgraData := some (directCopyBuf tex stride) })
  else
    (false, { f1 with bgraData := none })

/-- One destination byte of the CPU bilinear resample
(WindowsCaptureSession.cpp:976-1010): fractional source coordinates from the
width/height ratios, the four neighbour samples with the high index clamped to
`dimension - 1`, per-channel blending, and a clamp to [0,255] before the
truncating store. -/
def bilinearByte (tex : Texture) (xScale yScale : ℚ) (x y c : Nat) : Nat :=
  let srcX : ℚ := (x : ℚ) * xScale
  let srcY : ℚ := (y : ℚ) * yScale
  let x0 : Nat := (cIntTrunc srcX).toNat
  let y0 : Nat := (cIntTrunc srcY).toNat
  let x1 : Nat := min (x0 + 1) (tex.width - 1)
  let y1 : Nat := min (y0 + 1) (tex.height - 1)
  let xFrac : ℚ := srcX - (x0 : ℚ)
  let yFrac : ℚ := srcY - (y0 : ℚ)
  let px : Nat → Nat → ℚ := fun yy xx =>
    (tex.data (yy * tex.rowPitch + xx * 4 + c) : ℚ)
  let top : ℚ := px y0 x0 * (1 - xFrac) + px y0 x1 * xFrac
  let bottom : ℚ := px y1 x0 * (1 - xFrac) + px y1 x1 * xFrac
  let v : ℚ := top * (1 - yFrac) + bottom * yFrac
  (cIntTrunc (min 255 (max 0 v))).toNat

/-- The resized output buffer (WindowsCaptureSession.cpp:979-1010): bilinear
bytes for the `fW*4` written bytes of each of the `fH` rows; the padding bytes
up to the stride are left unwritten by the code and modelled as `0`. -/
def bilinearBuf (tex : Texture) (fW fH stride : Nat) (xScale yScale : ℚ) :
    Nat → Nat :=
  fun off =>
    let y := off / stride
    let j := off % stride
    if y < fH ∧ j < fW * 4 then
      bilinearByte tex xScale yScale (j / 4) y (j % 4)
    else 0

/-- `ResizeAndConvertTextureToBGRA` (WindowsCaptureSession.cpp:870-1032):
compute the aspect-preserving final size; if the source already fits inside
the target box, report the source dimensions and fall back to the direct
copy; otherwise allocate a buffer with the aligned output stride, resample
bilinearly, and report the final dimensions and stride. -/
def resizeAndConvertTextureToBGRA (tex : Texture) (tW tH : Nat)
    (allocOk : Bool) (f : BFrame) : Bool × BFrame :=
  let srcW := tex.width
  let srcH := tex.height
  let fs := finalSize srcW srcH tW tH
  if srcW ≤ tW ∧ srcH ≤ tH then
    convertTextureToBGRA tex allocOk
      { f with width := (srcW : Int), height := (srcH : Int) }
  else
    let stride := alignedStride16 fs.1
    if allocOk then
      let xScale : ℚ := (srcW : ℚ) / (fs.1 : ℚ)
      let yScale : ℚ := (srcH : ℚ) / (fs.2 : ℚ)
      (true, { f with
                bgraData := some (bilinearBuf tex fs.1 fs.2 stride xScale yScale)
                width := (fs.1 : Int), height := (fs.2 : Int)
                stride := (stride : Int) })
    else
      (false, { f with bgraData := none })

/-- The site of the `return false` taken by a failing session capture call;
each constructor corresponds to one distinct `SetLastError` message in
`WindowsCaptureSession.cpp` (`"Session not initialized"`,
`"Capture session not created"`, `"Frame capture timeout"`, and the failed
texture conversion). -/
inductive SessionResult where
  | ok
  | errNotInitialized
  | errNoSession
  | errTimeout
  | errConvert
deriving DecidableEq

/-- The per-session state of `WindowsCaptureSession`: the initialization flag,
the capture-session handle presence, and the single-slot frame mailbox
(`m_frameReady`, `m_latestFrame`, `m_frameWidth`, `m_frameHeight`,
`m_frameTimestamp`). -/
structure SessionState where
  initialized : Bool
  hasCaptureSession : Bool
  frameReady : Bool
  latestFrame : Texture
  frameWidth : Int
  frameHeight : Int
  frameTimestamp : Int

/-- `OnFrameArrived` (WindowsCaptureSession.cpp:340-380): a `none` frame from
`TryGetNextFrame` is silently ignored; otherwise the newest texture, its
descriptor dimensions and the arrival timestamp are stored into the slot and
the ready flag is raised. -/
def onFrameArrived (s : SessionState) (frame : Option Texture) (ts : Int) :
    SessionState :=
  match frame with
  | none => s
  | some tex =>
      { s with latestFrame := tex
               frameWidth := (tex.width : Int)
               frameHeight := (tex.height : Int)
               frameTimestamp := ts
               frameReady := true }

/-- `WindowsCaptureSession::CaptureFrame` (WindowsCaptureSession.cpp:382-447).
The condition-variable wait is modelled by the slot state: a call that finds
`frameReady` false times out.  On a received frame the slot metadata is
written to the out-parameters, the direct-copy conversion runs, and only on
success is `m_frameReady` cleared. -/
def sessionCaptureFrame (s : SessionState) (allocOk : Bool) (f : BFrame) :
    SessionResult × SessionState × BFrame :=
  if !s.initialized then (.errNotInitialized, s, f)
  else if !s.hasCaptureSession then (.errNoSession, s, f)
  else if !s.frameReady then (.errTimeout, s, f)
  else
    let f1 := { f with width := s.frameWidth, height := s.frameHeight
                       timestamp := s.frameTimestamp }
    match convertTextureToBGRA s.latestFrame allocOk f1 with
    | (false, f2) => (.errConvert, s, f2)
    | (true, f2) => (.ok, { s with frameReady := false }, f2)

/-- `WindowsCaptureSession::CaptureFrameResized`
(WindowsCaptureSession.cpp:795-864), the 8-parameter revision present in the
source: after the initialization checks, a non-positive target dimension
falls back to `CaptureFrame`; otherwise the wait runs, the timestamp is
written, and the resize-and-copy pipeline produces the output. -/
def sessionCaptureFrameResized (s : SessionState) (tW tH : Int)
    (allocOk : Bool) (f : BFrame) : SessionResult × SessionState × BFrame :=
  if !s.initialized then (.errNotInitialized, s, f)
  else if !s.hasCaptureSession then (.errNoSession, s, f)
  else if tW ≤ 0 ∨ tH ≤ 0 then sessionCaptureFrame s allocOk f
  else if !s.frameReady then (.errTimeout, s, f)
  else
    let f1 := { f with timestamp := s.frameTimestamp }
    match resizeAndConvertTextureToBGRA s.latestFrame tW.toNat tH.toNat
        allocOk f1 with
    | (false, f2) => (.errConvert, s, f2)
    | (true, f2) => (.ok, { s with frameReady := false }, f2)

/-- Modelled from the spec: `BaketaCaptureNative.cpp:242` calls a
10-parameter `WindowsCaptureSession::CaptureFrameResized` overload that also
outputs the pre-resize source dimensions, but its definition is not among the
source files (the `WindowsCaptureSession.{h,cpp}` revision present holds only
the 8-parameter form above, without these out-parameters).  Following the
spec, which states that the resize pipeline reports both the pre-resize and
post-resize dimensions and that the frame optionally carries the pre-resize
width/height when a resize was requested, this overload behaves like the
8-parameter form and additionally writes the source dimensions into the
original-size out-parameters exactly when a resize was performed. -/
def sessionCaptureFrameResizedV2 (s : SessionState) (tW tH : Int)
    (allocOk : Bool) (f : BFrame) : SessionResult × SessionState × BFrame :=
  if !s.initialized then (.errNotInitialized, s, f)
  else if !s.hasCaptureSession then (.errNoSession, s, f)
  else if tW ≤ 0 ∨ tH ≤ 0 then sessionCaptureFrame s allocOk f
  else if !s.frameReady then (.errTimeout, s, f)
  else
    let f1 := { f with timestamp := s.frameTimestamp }
    let src := s.latestFrame
    match resizeAndConvertTextureToBGRA src tW.toNat tH.toNat allocOk f1 with
    | (false, f2) => (.errConvert, s, f2)
    | (true, f2) =>
        let f3 :=
          if src.width ≤ tW.toNat ∧ src.height ≤ tH.toNat then f2
          else { f2 with originalWidth := (src.width : Int)
                         originalHeight := (src.height : Int) }
        (.ok, { s with frameReady := false }, f3)

/-- Status codes from `include/BaketaCaptureNative.h:8-14`. -/
def BAKETA_CAPTURE_SUCCESS : Int := 0

/-- Status code `-1` from `include/BaketaCaptureNative.h`. -/
def BAKETA_CAPTURE_ERROR_INVALID_WINDOW : Int := -1

/-- Status code `-2` from `include/BaketaCaptureNative.h`. -/
def BAKETA_CAPTURE_ERROR_UNSUPPORTED : Int := -2

/-- Status code `-4` from `include/BaketaCaptureNative.h`. -/
def BAKETA_CAPTURE_ERROR_NOT_FOUND : Int := -4

/-- Status code `-6` from `include/BaketaCaptureNative.h`. -/
def BAKETA_CAPTURE_ERROR_DEVICE : Int := -6

/-- The process-wide state of `BaketaCaptureNative.cpp`: `g_initialized`,
the id-to-session registry `g_sessions`, the atomic id counter
`g_nextSessionId`, and the last-error string `g_lastError`. -/
structure GlobalState where
  initialized : Bool
  sessions : List (Int × SessionState)
  nextSessionId : Int
  lastError : String

/-- The state right after a successful `BaketaCapture_Initialize`: the
counter starts at 1 (`BaketaCaptureNative.cpp:8`) and no session exists. -/
def gInit : GlobalState :=
  { initialized := true, sessions := [], nextSessionId := 1, lastError := "" }

/-- `g_sessions.find(sessionId)`. -/
def findSession (g : GlobalState) (sessionId : Int) : Option SessionState :=
  (g.sessions.find? (fun p => p.1 = sessionId)).map (fun p => p.2)

/-- Writing the mutated session object back into the registry (the C++ map
holds the session by pointer, so the capture call mutates it in place). -/
def updateSession (g : GlobalState) (sessionId : Int) (s : SessionState) :
    GlobalState :=
  { g with sessions :=
      g.sessions.map (fun p => if p.1 = sessionId then (sessionId, s) else p) }

/-- `BaketaCapture_CaptureFrame` (BaketaCaptureNative.cpp:145-199): the
library-initialized check, the null-frame check, zeroing of the five base
frame fields, the registry lookup, and the session call whose failure is
reported as `BAKETA_CAPTURE_ERROR_DEVICE` with the generic message. -/
def BaketaCapture_CaptureFrame (g : GlobalState) (sessionId : Int)
    (frame : Option BFrame) (allocOk : Bool) (timeoutMs : Int) :
    Int × GlobalState × Option BFrame :=
  let _ := timeoutMs
  if !g.initialized then
    (BAKETA_CAPTURE_ERROR_DEVICE,
      { g with lastError := "Library not initialized" }, frame)
  else
    match frame with
    | none =>
        (BAKETA_CAPTURE_ERROR_INVALID_WINDOW,
          { g with lastError := "Invalid frame parameter" }, none)
    | some f =>
        let f0 := { f with bgraData := none, width := 0, height := 0
                           stride := 0, timestamp := 0 }
        match findSession g sessionId with
        | none =>
            (BAKETA_CAPTURE_ERROR_NOT_FOUND,
              { g with lastError := "Session not found" }, some f0)
        | some s =>
            let r := sessionCaptureFrame s allocOk f0
            let g2 := updateSession g sessionId r.2.1
            if r.1 = SessionResult.ok then
              (BAKETA_CAPTURE_SUCCESS, { g2 with lastError := "" }, some r.2.2)
            else
              (BAKETA_CAPTURE_ERROR_DEVICE,
                { g2 with lastError := "Failed to capture frame" }, some r.2.2)

/-- `BaketaCapture_CaptureFrameResized` (BaketaCaptureNative.cpp:204-261):
like `BaketaCapture_CaptureFrame` but zeroing all seven frame fields
(including the Issue-193 original-size fields) and calling the resized
session capture. -/
def BaketaCapture_CaptureFrameResized (g : GlobalState) (sessionId : Int)
    (frame : Option BFrame) (tW tH : Int) (allocOk : Bool) (timeoutMs : Int) :
    Int × GlobalState × Option BFrame :=
  let _ := timeoutMs
  if !g.initialized then
    (BAKETA_CAPTURE_ERROR_DEVICE,
      { g with lastError := "Library not initialized" }, frame)
  else
    match frame with
    | none =>
        (BAKETA_CAPTURE_ERROR_INVALID_WINDOW,
          { g with lastError := "Invalid frame parameter" }, none)
    | some f =>
        let f0 := { f with bgraData := none, width := 0, height := 0
                           stride := 0, timestamp := 0
                           originalWidth := 0, originalHeight := 0 }
        match findSession g sessionId with
        | none =>
            (BAKETA_CAPTURE_ERROR_NOT_FOUND,
              { g with lastError := "Session not found" }, some f0)
        | some s =>
            let r := sessionCaptureFrameResizedV2 s tW tH allocOk f0
            let g2 := updateSession g sessionId r.2.1
            if r.1 = SessionResult.ok then
              (BAKETA_CAPTURE_SUCCESS, { g2 with lastError := "" }, some r.2.2)
            else
              (BAKETA_CAPTURE_ERROR_DEVICE,
                { g2 with lastError := "Failed to capture resized frame" },
                some r.2.2)

/-- `BaketaCapture_ReleaseFrame` (BaketaCaptureNative.cpp:266-280).  The
second component is the buffer handed to `_aligned_free` by this call
(`none` when the call frees nothing): a null frame pointer or a null
`bgraData` makes the call a no-op, otherwise the buffer is freed and every
field of the structure is zeroed. -/
def BaketaCapture_ReleaseFrame (frame : Option BFrame) :
    Option BFrame × Option (Nat → Nat) :=
  match frame with
  | none => (none, none)
  | some f =>
      match f.bgraData with
      | none => (some f, none)
      | some buf => (some zeroBFrame, some buf)

/-- Two’s-complement wraparound of a signed 32-bit integer: the value the
`std::atomic<int>` counter holds after an increment, since `fetch_add` on an
atomic performs defined modular (wrapping) arithmetic. -/
def wrap32 (x : Int) : Int :=
  (x + 2 ^ 31) % 2 ^ 32 - 2 ^ 31

/-- `BaketaCapture_CreateSession` (BaketaCaptureNative.cpp:79-140):
after the library and window-handle checks, the atomic counter is consumed
(`g_nextSessionId.fetch_add(1)`, a signed 32-bit increment that wraps, hence
`wrap32`), the session is constructed and initialized (outcome given by the
oracle `initOk`, the constructed session by `newSession`), and only a
successfully initialized session is stored and its id returned.  A failed
initialization still consumed the counter value. -/
def BaketaCapture_CreateSession (g : GlobalState) (hwndValid : Bool)
    (initOk : Bool) (newSession : SessionState) :
    Int × GlobalState × Option Int :=
  if !g.initialized then
    (BAKETA_CAPTURE_ERROR_DEVICE,
      { g with lastError := "Library not initialized" }, none)
  else if !hwndValid then
    (BAKETA_CAPTURE_ERROR_INVALID_WINDOW,
      { g with lastError := "Invalid window handle" }, none)
  else
    let newId := g.nextSessionId
    let g1 := { g with nextSessionId := wrap32 (newId + 1) }
    if !initOk then
      (BAKETA_CAPTURE_ERROR_DEVICE, g1, none)
    else
      (BAKETA_CAPTURE_SUCCESS,
        { g1 with sessions := (newId, newSession) :: g1.sessions
                  lastError := "" }, some newId)

/-- `BaketaCapture_ReleaseSession` (BaketaCaptureNative.cpp:285-289):
removes the session from the registry; the id counter is untouched. -/
def BaketaCapture_ReleaseSession (g : GlobalState) (sessionId : Int) :
    GlobalState :=
  { g with sessions := g.sessions.filter (fun p => p.1 ≠ sessionId) }

/-- One registry-facing call in an interleaved execution: session creation
(with its window-validity and initialization outcomes) or session release.
The platform guarantees `fetch_add` is atomic, so any concurrent execution
is an interleaving of these whole steps. -/
inductive RegOp where
  | create (hwndValid : Bool) (initOk : Bool) (newSession : SessionState)
  | release (id : Int)

/-- Apply one registry operation; the second component is the session id a
successful `CreateSession` returned, if any. -/
def applyRegOp (g : GlobalState) : RegOp → GlobalState × Option Int
  | .create hwndValid initOk s =>
      let r := BaketaCapture_CreateSession g hwndValid initOk s
      (r.2.1, r.2.2)
  | .release id => (BaketaCapture_ReleaseSession g id, none)

/-- Run a sequence of registry operations, collecting the returned session
ids in call order. -/
def runRegOps (g : GlobalState) : List RegOp → GlobalState × List Int
  | [] => (g, [])
  | op :: rest =>
      let r := applyRegOp g op
      let r2 := runRegOps r.1 rest
      (r2.1, r.2.toList ++ r2.2)

/-- The number of `CreateSession` calls in an operation sequence (an upper
bound on how often the id counter is consumed). -/
def countCreates (ops : List RegOp) : Nat :=
  ops.countP (fun op => match op with
    | RegOp.create _ _ _ => true
    | RegOp.release _ => false)

/-- The observable steps of the `CreateForWindow` retry loop in
`CreateCaptureItem` (WindowsCaptureSession.cpp:199-241). -/
inductive ItemEvent where
  | attempt (i : Nat) (ok : Bool)
  | sleep (ms : Nat)
  | revalidate (i : Nat) (ok : Bool)
deriving DecidableEq

/-- Whether an event is a platform bind attempt. -/
def isAttempt : ItemEvent → Bool
  | .attempt _ _ => true
  | _ => false

/-- `maxRetries` (WindowsCaptureSession.cpp:202). -/
def maxRetries : Nat := 3

/-- `delayMs` (WindowsCaptureSession.cpp:203). -/
def retryDelayMs : Nat := 100

/-- The retry loop of `CreateCaptureItem` (WindowsCaptureSession.cpp:205-250)
from attempt index `i` with the given fuel (the loop runs at most
`maxRetries` iterations): try `CreateForWindow` (outcome `att i`); on success
stop; otherwise, if another attempt remains, sleep `delayMs` and re-validate
the window (outcome `reval i`), aborting the whole sequence if the
re-validation fails; exhausting the attempts fails. -/
def bindAttempts (att reval : Nat → Bool) : Nat → Nat → List ItemEvent × Bool
  | 0, _ => ([], false)
  | fuel + 1, i =>
    if att i then ([.attempt i true], true)
    else if i + 1 < maxRetries then
      if reval i then
        let r := bindAttempts att reval fuel (i + 1)
        (.attempt i false :: .sleep retryDelayMs :: .revalidate i true :: r.1,
          r.2)
      else
        ([.attempt i false, .sleep retryDelayMs, .revalidate i false], false)
    else ([.attempt i false], false)

/-- `CreateCaptureItem` (WindowsCaptureSession.cpp:175-279) reduced to its
window-validation and retry behaviour: the initial
`ValidateWindowStateForCapture` gate (outcome `initialValid`) followed by the
bounded retry loop. -/
def createCaptureItem (initialValid : Bool) (att reval : Nat → Bool) :
    List ItemEvent × Bool :=
  if initialValid then bindAttempts att reval maxRetries 0 else ([], false)

/-! ### Concrete fixtures used by witnesses and counterexamples -/

/-- A 1920×1080 BGRA source texture with the packed row pitch 7680. -/
def texFullHD : Texture := ⟨1920, 1080, 7680, fun _ => 0⟩

/-- A 1×1 source texture with the packed row pitch 4. -/
def texTiny : Texture := ⟨1, 1, 4, fun _ => 0⟩

/-- An initialized session whose frame slot holds `texFullHD`. -/
def sessReadyFullHD : SessionState := ⟨true, true, true, texFullHD, 1920, 1080, 7⟩

/-- A registry holding `sessReadyFullHD` under id 1. -/
def gReadyFullHD : GlobalState := ⟨true, [(1, sessReadyFullHD)], 2, ""⟩

/-- An initialized session whose frame slot is empty (a capture call on it
times out). -/
def sessNoFrame : SessionState := ⟨true, true, false, texTiny, 0, 0, 0⟩

/-- A registry holding `sessNoFrame` under id 1. -/
def gNoFrame : GlobalState := ⟨true, [(1, sessNoFrame)], 2, ""⟩

/-- An initialized session whose frame slot holds `texTiny`. -/
def sessReadyTiny : SessionState := ⟨true, true, true, texTiny, 1, 1, 3⟩

/-- A registry holding `sessReadyTiny` under id 1. -/
def gReadyTiny : GlobalState := ⟨true, [(1, sessReadyTiny)], 2, ""⟩

/-! ### Helper lemmas -/

theorem alignedStride16_dvd (w : Nat) : 16 ∣ alignedStride16 w :=
  dvd_mul_left 16 _

theorem le_alignedStride16 (w : Nat) : w * 4 ≤ alignedStride16 w := by
  have h := Nat.div_add_mod (w * 4 + 15) 16
  have h2 : (w * 4 + 15) % 16 < 16 := Nat.mod_lt _ (by omega)
  unfold alignedStride16
  omega

theorem safeStride_eq_max (rp w : Nat) :
    safeStride rp w = max rp (alignedStride16 w) := by
  unfold safeStride
  split <;> omega

theorem cIntTrunc_div_aspect (tW srcW srcH : Nat) :
    (cIntTrunc ((tW : ℚ) / ((srcW : ℚ) / (srcH : ℚ)))).toNat =
      tW * srcH / srcW := by
  have h1 : (tW : ℚ) / ((srcW : ℚ) / (srcH : ℚ)) =
      ((tW * srcH : Nat) : ℚ) / ((srcW : Nat) : ℚ) := by
    push_cast
    rw [div_div_eq_mul_div]
  have hnn : 0 ≤ (tW : ℚ) / ((srcW : ℚ) / (srcH : ℚ)) := by positivity
  rw [cIntTrunc, if_pos hnn, Int.floor_toNat, h1, Nat.floor_div_nat,
    Nat.floor_natCast]

theorem cIntTrunc_mul_aspect (tH srcW srcH : Nat) :
    (cIntTrunc ((tH : ℚ) * ((srcW : ℚ) / (srcH : ℚ)))).toNat =
      tH * srcW / srcH := by
  have h1 : (tH : ℚ) * ((srcW : ℚ) / (srcH : ℚ)) =
      ((tH * srcW : Nat) : ℚ) / ((srcH : Nat) : ℚ) := by
    push_cast
    ring
  have hnn : 0 ≤ (tH : ℚ) * ((srcW : ℚ) / (srcH : ℚ)) := by positivity
  rw [cIntTrunc, if_pos hnn, Int.floor_toNat, h1, Nat.floor_div_nat,
    Nat.floor_natCast]

theorem finalSize_char (srcW srcH tW tH : Nat)
    (hW : 1 ≤ srcW) (hH : 1 ≤ srcH) (htW : 1 ≤ tW) (htH : 1 ≤ tH) :
    finalSize srcW srcH tW tH =
      if tW * srcH < srcW * tH then (tW, max 1 (tW * srcH / srcW))
      else (max 1 (tH * srcW / srcH), tH) := by
  have hH0 : (0 : ℚ) < (srcH : ℚ) := by exact_mod_cast hH
  have htH0 : (0 : ℚ) < (tH : ℚ) := by exact_mod_cast htH
  have hcond : ((tW : ℚ) / (tH : ℚ) < (srcW : ℚ) / (srcH : ℚ)) ↔
      tW * srcH < srcW * tH := by
    rw [div_lt_div_iff₀ htH0 hH0]
    constructor
    · intro h
      exact_mod_cast h
    · intro h
      exact_mod_cast h
  simp only [finalSize]
  by_cases hc : tW * srcH < srcW * tH
  · rw [if_pos (hcond.mpr hc), if_pos hc, cIntTrunc_div_aspect]
    have hmw : max 1 tW = tW := Nat.max_eq_right htW
    simp [hmw]
  · rw [if_neg (fun h => hc (hcond.mp h)), if_neg hc, cIntTrunc_mul_aspect]
    have hmh : max 1 tH = tH := Nat.max_eq_right htH
    simp [hmh]

theorem finalSize_bounds (srcW srcH tW tH : Nat)
    (hW : 1 ≤ srcW) (hH : 1 ≤ srcH) (htW : 1 ≤ tW) (htH : 1 ≤ tH) :
    (finalSize srcW srcH tW tH).1 ≤ tW ∧ (finalSize srcW srcH tW tH).2 ≤ tH ∧
      ((finalSize srcW srcH tW tH).1 = tW ∨
        (finalSize srcW srcH tW tH).2 = tH) := by
  rw [finalSize_char srcW srcH tW tH hW hH htW htH]
  by_cases hc : tW * srcH < srcW * tH
  · rw [if_pos hc]
    refine ⟨le_refl _, ?_, Or.inl rfl⟩
    have hdiv : tW * srcH / srcW < tH := by
      rw [Nat.div_lt_iff_lt_mul (by omega : 0 < srcW), Nat.mul_comm tH srcW]
      exact hc
    exact max_le htH (Nat.le_of_lt hdiv)
  · rw [if_neg hc]
    refine ⟨?_, le_refl _, Or.inr rfl⟩
    have h1 : tH * srcW ≤ tW * srcH := by
      rw [Nat.mul_comm tH srcW]
      exact Nat.le_of_not_lt hc
    have hdiv : tH * srcW / srcH ≤ tW := by
      calc tH * srcW / srcH ≤ tW * srcH / srcH := Nat.div_le_div_right h1
        _ = tW := Nat.mul_div_cancel _ (by omega : 0 < srcH)
    exact max_le htW hdiv

/-! ### C1 -/

/-- C1: for every capture whose target box is strictly smaller than the
source in at least one dimension, the resize pipeline succeeds and reports
final dimensions computed by aspect-preserving scaling — scaled by the width
ratio when the source is proportionally wider than the target
(`tW * srcH < srcW * tH`), else by the height ratio — each clamped to a
minimum of 1, with `finalW ≤ targetW`, `finalH ≤ targetH`, and at least one
final dimension equal to its target. -/
theorem resize_preserves_aspect_within_box (tex : Texture) (tW tH : Nat)
    (f : BFrame)
    (hW : 1 ≤ tex.width) (hH : 1 ≤ tex.height) (htW : 1 ≤ tW) (htH : 1 ≤ tH)
    (hsm : tW < tex.width ∨ tH < tex.height) :
    (resizeAndConvertTextureToBGRA tex tW tH true f).1 = true ∧
    (resizeAndConvertTextureToBGRA tex tW tH true f).2.width =
      ((finalSize tex.width tex.height tW tH).1 : Int) ∧
    (resizeAndConvertTextureToBGRA tex tW tH true f).2.height =
      ((finalSize tex.width tex.height tW tH).2 : Int) ∧
    finalSize tex.width tex.height tW tH =
      (if tW * tex.height < tex.width * tH
        then (tW, max 1 (tW * tex.height / tex.width))
        else (max 1 (tH * tex.width / tex.height), tH)) ∧
    (finalSize tex.width tex.height tW tH).1 ≤ tW ∧
    (finalSize tex.width tex.height tW tH).2 ≤ tH ∧
    ((finalSize tex.width tex.height tW tH).1 = tW ∨
      (finalSize tex.width tex.height tW tH).2 = tH) := by
  have hnot : ¬(tex.width ≤ tW ∧ tex.height ≤ tH) := by omega
  have hb := finalSize_bounds tex.width tex.height tW tH hW hH htW htH
  refine ⟨?_, ?_, ?_, finalSize_char tex.width tex.height tW tH hW hH htW htH,
    hb.1, hb.2.1, hb.2.2⟩ <;>
    simp [resizeAndConvertTextureToBGRA, hnot]

/-- Witness for C1 at the specification example: a 1920×1080 source resized
into a 640×480 box succeeds and yields final dimensions 640×360. -/
theorem resize_preserves_aspect_within_box_witness :
    (resizeAndConvertTextureToBGRA texFullHD 640 480 true zeroBFrame).1 =
      true ∧
    finalSize 1920 1080 640 480 = (640, 360) := by
  have h := resize_preserves_aspect_within_box texFullHD 640 480 zeroBFrame
    (by decide) (by decide) (by decide) (by decide) (Or.inl (by decide))
  refine ⟨h.1, ?_⟩
  have h4 := h.2.2.2.1
  have he : texFullHD.width = 1920 := rfl
  have he2 : texFullHD.height = 1080 := rfl
  rw [he, he2] at h4
  rw [h4]
  norm_num

/-! ### C2 -/

/-- C2 counterexample: the claim asserts that every successful capture
returns a stride that is a multiple of 16 and never smaller than the source
row pitch, for any source row pitch.  A 1×1 texture with a 24-byte row pitch
makes the direct copy succeed with stride 24 (24 % 16 = 8), and a 32×32
texture with a 200-byte row pitch resized into a 16×16 box succeeds with
stride 64 < 200. -/
theorem stride_claim_counterexample :
    (convertTextureToBGRA ⟨1, 1, 24, fun _ => 0⟩ true zeroBFrame).1 = true ∧
    (convertTextureToBGRA ⟨1, 1, 24, fun _ => 0⟩ true zeroBFrame).2.stride %
      16 = 8 ∧
    (resizeAndConvertTextureToBGRA ⟨32, 32, 200, fun _ => 0⟩ 16 16 true
      zeroBFrame).1 = true ∧
    (resizeAndConvertTextureToBGRA ⟨32, 32, 200, fun _ => 0⟩ 16 16 true
      zeroBFrame).2.stride = 64 := by
  have hfs : finalSize 32 32 16 16 = (16, 16) := by
    unfold finalSize cIntTrunc
    norm_num
    rfl
  refine ⟨rfl, rfl, ?_, ?_⟩ <;>
    simp [resizeAndConvertTextureToBGRA, hfs, alignedStride16]

/-- C2 (amended): every successful capture returns a stride at least
`width*4`.  On the direct-copy path the stride equals
`max (source row pitch) (roundUp16 (width*4))` — hence it is never smaller
than the source row pitch, and it is a multiple of 16 provided the source
row pitch is itself a multiple of 16 or does not exceed the aligned packed
stride.  On the resized path the stride equals `roundUp16 (finalWidth*4)`,
always a multiple of 16 but independent of (and possibly smaller than) the
source row pitch. -/
theorem stride_spec_amended :
    (∀ (tex : Texture) (allocOk : Bool) (f : BFrame),
      (convertTextureToBGRA tex allocOk f).1 = true →
      (convertTextureToBGRA tex allocOk f).2.stride =
        ((max tex.rowPitch (alignedStride16 tex.width) : Nat) : Int) ∧
      tex.width * 4 ≤ max tex.rowPitch (alignedStride16 tex.width) ∧
      tex.rowPitch ≤ max tex.rowPitch (alignedStride16 tex.width) ∧
      (16 ∣ tex.rowPitch ∨ tex.rowPitch ≤ alignedStride16 tex.width →
        16 ∣ max tex.rowPitch (alignedStride16 tex.width))) ∧
    (∀ (tex : Texture) (tW tH : Nat) (f : BFrame),
      ¬(tex.width ≤ tW ∧ tex.height ≤ tH) →
      (resizeAndConvertTextureToBGRA tex tW tH true f).1 = true ∧
      (resizeAndConvertTextureToBGRA tex tW tH true f).2.stride =
        ((alignedStride16 (finalSize tex.width tex.height tW tH).1 : Nat) :
          Int) ∧
      16 ∣ alignedStride16 (finalSize tex.width tex.height tW tH).1 ∧
      (finalSize tex.width tex.height tW tH).1 * 4 ≤
        alignedStride16 (finalSize tex.width tex.height tW tH).1) := by
  constructor
  · intro tex allocOk f hs
    have hmax : tex.width * 4 ≤ max tex.rowPitch (alignedStride16 tex.width) :=
      le_trans (le_alignedStride16 _) (le_max_right _ _)
    have hdvd : 16 ∣ tex.rowPitch ∨ tex.rowPitch ≤ alignedStride16 tex.width →
        16 ∣ max tex.rowPitch (alignedStride16 tex.width) := by
      intro hcase
      rcases Nat.le_total tex.rowPitch (alignedStride16 tex.width) with hle | hge
      · rw [Nat.max_eq_right hle]
        exact alignedStride16_dvd _
      · rw [Nat.max_eq_left hge]
        rcases hcase with hd | hle2
        · exact hd
        · have heq : tex.rowPitch = alignedStride16 tex.width :=
            Nat.le_antisymm hle2 hge
          rw [heq]
          exact alignedStride16_dvd _
    cases allocOk with
    | false => simp [convertTextureToBGRA] at hs
    | true =>
        refine ⟨?_, hmax, le_max_left _ _, hdvd⟩
        simp [convertTextureToBGRA, safeStride_eq_max]
  · intro tex tW tH f hnot
    refine ⟨?_, ?_, alignedStride16_dvd _, le_alignedStride16 _⟩ <;>
      simp [resizeAndConvertTextureToBGRA, hnot]

/-- Witness for C2 (amended) on the direct path: a 2×1 texture with an
8-byte row pitch yields stride `max 8 (alignedStride16 2) = 16`. -/
theorem stride_spec_amended_witness :
    (convertTextureToBGRA ⟨2, 1, 8, fun _ => 0⟩ true zeroBFrame).2.stride =
      ((max 8 (alignedStride16 2) : Nat) : Int) :=
  (stride_spec_amended.1 ⟨2, 1, 8, fun _ => 0⟩ true zeroBFrame rfl).1

/-! ### C3 -/

/-- Fallback equation: a non-positive target dimension reduces the resized
session capture to the plain session capture. -/
theorem sessionCaptureFrameResized_fallback (s : SessionState) (tW tH : Int)
    (allocOk : Bool) (f : BFrame) (h : tW ≤ 0 ∨ tH ≤ 0) :
    sessionCaptureFrameResized s tW tH allocOk f =
      sessionCaptureFrame s allocOk f := by
  by_cases h1 : s.initialized
  · by_cases h2 : s.hasCaptureSession
    · unfold sessionCaptureFrameResized
      simp only [h1, h2, Bool.not_true, Bool.false_eq_true, if_false]
      rw [if_pos h]
    · unfold sessionCaptureFrameResized sessionCaptureFrame
      simp [h1, h2]
  · unfold sessionCaptureFrameResized sessionCaptureFrame
    simp [h1]

/-- C3: with a non-positive target dimension, the resized session capture is
definitionally the plain session capture — the same checks, the same wait,
the same conversion, hence byte-identical output and identical state for
every session state and every underlying source frame. -/
theorem captureFrameResized_zero_target_eq (s : SessionState) (tW tH : Int)
    (allocOk : Bool) (f : BFrame) (h : tW ≤ 0 ∨ tH ≤ 0) :
    sessionCaptureFrameResized s tW tH allocOk f =
      sessionCaptureFrame s allocOk f :=
  sessionCaptureFrameResized_fallback s tW tH allocOk f h

/-- Witness for C3: a zero target box on a ready session gives the same
result as the plain capture. -/
theorem captureFrameResized_zero_target_eq_witness :
    sessionCaptureFrameResized sessReadyFullHD 0 0 true zeroBFrame =
      sessionCaptureFrame sessReadyFullHD true zeroBFrame :=
  captureFrameResized_zero_target_eq sessReadyFullHD 0 0 true zeroBFrame
    (Or.inl (by decide))

/-! ### C7 -/

/-- Draining inversion for the plain capture: a successful call leaves the
session state unchanged except for clearing the ready flag. -/
theorem sessionCaptureFrame_ok_state (s : SessionState) (allocOk : Bool)
    (f : BFrame) (hok : (sessionCaptureFrame s allocOk f).1 = SessionResult.ok) :
    (sessionCaptureFrame s allocOk f).2.1 = { s with frameReady := false } := by
  unfold sessionCaptureFrame at hok ⊢
  by_cases h1 : s.initialized
  · by_cases h2 : s.hasCaptureSession
    · by_cases h3 : s.frameReady
      · simp only [h1, h2, h3, Bool.not_true, Bool.false_eq_true,
          if_false] at hok ⊢
        rcases hc : convertTextureToBGRA s.latestFrame allocOk
            { f with width := s.frameWidth, height := s.frameHeight,
                     timestamp := s.frameTimestamp } with ⟨b, f2⟩
        rw [hc] at hok
        cases b
        · exact SessionResult.noConfusion hok
        · rfl
      · simp [h1, h2, h3] at hok
    · simp [h1, h2] at hok
  · simp [h1] at hok

/-- Draining inversion for the resized capture. -/
theorem sessionCaptureFrameResized_ok_state (s : SessionState) (tW tH : Int)
    (allocOk : Bool) (f : BFrame)
    (hok : (sessionCaptureFrameResized s tW tH allocOk f).1 =
      SessionResult.ok) :
    (sessionCaptureFrameResized s tW tH allocOk f).2.1 =
      { s with frameReady := false } := by
  by_cases hz : tW ≤ 0 ∨ tH ≤ 0
  · rw [sessionCaptureFrameResized_fallback s tW tH allocOk f hz] at hok ⊢
    exact sessionCaptureFrame_ok_state s allocOk f hok
  · unfold sessionCaptureFrameResized at hok ⊢
    by_cases h1 : s.initialized
    · by_cases h2 : s.hasCaptureSession
      · by_cases h3 : s.frameReady
        · simp only [h1, h2, h3, Bool.not_true, Bool.false_eq_true, if_false,
            if_neg hz] at hok ⊢
          rcases hc : resizeAndConvertTextureToBGRA s.latestFrame tW.toNat
              tH.toNat allocOk { f with timestamp := s.frameTimestamp }
            with ⟨b, f2⟩
          rw [hc] at hok
          cases b
          · exact SessionResult.noConfusion hok
          · rfl
        · simp [h1, h2, h3, if_neg hz] at hok
      · simp [h1, h2] at hok
    · simp [h1] at hok

/-- C7 counterexample: the claim asserts that draining the slot by a
successful capture resets the stored width, height and timestamp to zero.
On a ready session holding a 1920×1080 frame with timestamp 7 the capture
succeeds, yet the drained slot still stores width 1920, height 1080 and
timestamp 7 — none of them zero. -/
theorem drain_reset_counterexample :
    (sessionCaptureFrame sessReadyFullHD true zeroBFrame).1 =
      SessionResult.ok ∧
    (sessionCaptureFrame sessReadyFullHD true zeroBFrame).2.1.frameWidth =
      1920 ∧
    (sessionCaptureFrame sessReadyFullHD true zeroBFrame).2.1.frameHeight =
      1080 ∧
    (sessionCaptureFrame sessReadyFullHD true zeroBFrame).2.1.frameTimestamp =
      7 ∧
    ((1920 : Int) ≠ 0 ∧ (1080 : Int) ≠ 0 ∧ (7 : Int) ≠ 0) :=
  ⟨rfl, rfl, rfl, rfl, by decide⟩

/-- C7 (amended): whenever the slot is drained by a successful capture (plain
or resized), only the frame-ready flag is cleared; the stored width, height
and timestamp retain their previous values (they are not reset to zero and
are overwritten only by the next arrival), so the metadata is meaningful only
together with the ready flag. -/
theorem drain_clears_only_ready_flag (s : SessionState) (allocOk : Bool)
    (f : BFrame) :
    ((sessionCaptureFrame s allocOk f).1 = SessionResult.ok →
      (sessionCaptureFrame s allocOk f).2.1 =
        { s with frameReady := false }) ∧
    (∀ tW tH : Int,
      (sessionCaptureFrameResized s tW tH allocOk f).1 = SessionResult.ok →
      (sessionCaptureFrameResized s tW tH allocOk f).2.1 =
        { s with frameReady := false }) :=
  ⟨sessionCaptureFrame_ok_state s allocOk f,
    fun tW tH => sessionCaptureFrameResized_ok_state s tW tH allocOk f⟩

/-- Witness for C7 (amended): draining the ready full-HD session yields
exactly the same state with the ready flag cleared. -/
theorem drain_clears_only_ready_flag_witness :
    (sessionCaptureFrame sessReadyFullHD true zeroBFrame).2.1 =
      { sessReadyFullHD with frameReady := false } :=
  (drain_clears_only_ready_flag sessReadyFullHD true zeroBFrame).1 rfl

/-! ### C8 -/

/-- C8: `ReleaseFrame` frees the pixel buffer (exactly the stored one) and
zeroes every field of the structure; on a frame without a buffer — including
the zeroed result of a previous release — it frees nothing and leaves the
structure untouched, so a second `ReleaseFrame` on the same frame is a no-op
that performs no second free; a null frame pointer is also a no-op. -/
theorem releaseFrame_idempotent_safe (f : BFrame) :
    (∀ buf, f.bgraData = some buf →
      BaketaCapture_ReleaseFrame (some f) = (some zeroBFrame, some buf)) ∧
    (f.bgraData = none →
      BaketaCapture_ReleaseFrame (some f) = (some f, none)) ∧
    BaketaCapture_ReleaseFrame (BaketaCapture_ReleaseFrame (some f)).1 =
      ((BaketaCapture_ReleaseFrame (some f)).1, none) ∧
    BaketaCapture_ReleaseFrame none = (none, none) := by
  refine ⟨?_, ?_, ?_, rfl⟩
  · intro buf hbuf
    simp [BaketaCapture_ReleaseFrame, hbuf]
  · intro hnone
    simp [BaketaCapture_ReleaseFrame, hnone]
  · rcases hb : f.bgraData with _ | buf <;>
      simp [BaketaCapture_ReleaseFrame, hb, zeroBFrame]

/-- Witness for C8: releasing a frame holding a buffer zeroes it and frees
that buffer; the immediate second release is a no-op freeing nothing. -/
theorem releaseFrame_idempotent_safe_witness :
    BaketaCapture_ReleaseFrame
        (some { zeroBFrame with bgraData := some (fun _ => 7), width := 3 }) =
      (some zeroBFrame, some (fun _ => 7)) ∧
    BaketaCapture_ReleaseFrame
        (BaketaCapture_ReleaseFrame
          (some { zeroBFrame with bgraData := some (fun _ => 7), width := 3 })).1 =
      ((BaketaCapture_ReleaseFrame
          (some { zeroBFrame with bgraData := some (fun _ => 7), width := 3 })).1,
        none) :=
  ⟨(releaseFrame_idempotent_safe _).1 (fun _ => 7) rfl,
    (releaseFrame_idempotent_safe _).2.2.1⟩

/-! ### C5 -/

/-- Writing a session back under its id leaves it findable under that id. -/
theorem findSession_updateSession (g : GlobalState) (id : Int)
    (s s0 : SessionState) (h : findSession g id = some s0) :
    findSession (updateSession g id s) id = some s := by
  have key : ∀ (l : List (Int × SessionState)),
      ((l.find? (fun p => p.1 = id)).map (fun p => p.2)) = some s0 →
      (((l.map (fun p => if p.1 = id then (id, s) else p)).find?
          (fun p => p.1 = id)).map (fun p => p.2)) = some s := by
    intro l
    induction l with
    | nil =>
        intro h1
        simp at h1
    | cons hd tl ih =>
        intro h1
        by_cases hhd : hd.1 = id
        · simp [List.find?_cons, hhd]
        · rw [List.find?_cons_of_neg _ (by simp [hhd])] at h1
          simp only [List.map_cons, if_neg hhd]
          rw [List.find?_cons_of_neg _ (by simp [hhd])]
          exact ih h1
  exact key g.sessions h

/-- C5 counterexample: the claim says a timeout is reported distinctly from
device failure.  At the C surface both a timed-out capture (empty frame slot)
and a device failure (failed buffer allocation after a received frame) return
the same `BAKETA_CAPTURE_ERROR_DEVICE` status and record the same generic
`g_lastError` message, so the caller cannot distinguish them. -/
theorem timeout_api_collapse_counterexample :
    (BaketaCapture_CaptureFrame gNoFrame 1 (some zeroBFrame) true 100).1 =
      BAKETA_CAPTURE_ERROR_DEVICE ∧
    (BaketaCapture_CaptureFrame gReadyTiny 1 (some zeroBFrame) false 100).1 =
      BAKETA_CAPTURE_ERROR_DEVICE ∧
    (BaketaCapture_CaptureFrame gNoFrame 1 (some zeroBFrame) true
        100).2.1.lastError =
      (BaketaCapture_CaptureFrame gReadyTiny 1 (some zeroBFrame) false
        100).2.1.lastError :=
  ⟨rfl, rfl, rfl⟩

/-- C5 (amended): a capture on an initialized session with an empty frame
slot fails with the timeout-specific session-level result (the distinct
`"Frame capture timeout"` site, `SessionResult.errTimeout`) and leaves the
session state completely unchanged — the session is not torn down and a
subsequent capture after a frame arrival succeeds; the C API however maps
this timeout to the same `BAKETA_CAPTURE_ERROR_DEVICE` status it uses for
device failures, while keeping the session registered unchanged. -/
theorem timeout_distinct_session_and_usable (s : SessionState)
    (allocOk : Bool) (f : BFrame) (h1 : s.initialized = true)
    (h2 : s.hasCaptureSession = true) (h3 : s.frameReady = false) :
    sessionCaptureFrame s allocOk f = (SessionResult.errTimeout, s, f) ∧
    (∀ (tex : Texture) (ts : Int) (f2 : BFrame),
      (sessionCaptureFrame (onFrameArrived s (some tex) ts) true f2).1 =
        SessionResult.ok) ∧
    (∀ (g : GlobalState) (sid : Int) (f3 : BFrame) (t : Int),
      g.initialized = true → findSession g sid = some s →
      (BaketaCapture_CaptureFrame g sid (some f3) allocOk t).1 =
        BAKETA_CAPTURE_ERROR_DEVICE ∧
      findSession (BaketaCapture_CaptureFrame g sid (some f3) allocOk t).2.1
        sid = some s) := by
  have htime : ∀ f4 : BFrame,
      sessionCaptureFrame s allocOk f4 = (SessionResult.errTimeout, s, f4) := by
    intro f4
    simp [sessionCaptureFrame, h1, h2, h3]
  refine ⟨htime f, ?_, ?_⟩
  · intro tex ts f2
    simp [sessionCaptureFrame, onFrameArrived, convertTextureToBGRA, h1, h2]
  · intro g sid f3 t hg hfind
    unfold BaketaCapture_CaptureFrame
    simp only [hg, Bool.not_true, Bool.false_eq_true, if_false, hfind]
    rw [htime]
    simp only []
    constructor
    · simp
    · exact findSession_updateSession g sid s s hfind

/-- Witness for C5 (amended): the empty-slot session times out with the
session state unchanged, and succeeds after a frame arrival. -/
theorem timeout_distinct_session_and_usable_witness :
    sessionCaptureFrame sessNoFrame true zeroBFrame =
      (SessionResult.errTimeout, sessNoFrame, zeroBFrame) ∧
    (sessionCaptureFrame (onFrameArrived sessNoFrame (some texTiny) 5) true
      zeroBFrame).1 = SessionResult.ok :=
  ⟨(timeout_distinct_session_and_usable sessNoFrame true zeroBFrame rfl rfl
      rfl).1,
    (timeout_distinct_session_and_usable sessNoFrame true zeroBFrame rfl rfl
      rfl).2.1 texTiny 5 zeroBFrame⟩

/-! ### C10 -/

/-- C10 counterexample: the claim says the frame structure is zeroed before
attempting capture, so that it is fully zeroed on an uninitialized-library
failure.  With `g_initialized = false` the function returns before touching
the frame: a caller-provided frame with `width = 5` still has `width = 5`
(and the same for the resized variant). -/
theorem frame_zeroing_uninit_counterexample :
    (BaketaCapture_CaptureFrame ⟨false, [], 1, ""⟩ 1
        (some { zeroBFrame with width := 5 }) true 100).2.2 =
      some { zeroBFrame with width := 5 } ∧
    (BaketaCapture_CaptureFrameResized ⟨false, [], 1, ""⟩ 1
        (some { zeroBFrame with width := 5 }) 640 480 true 100).2.2 =
      some { zeroBFrame with width := 5 } ∧
    ((5 : Int) ≠ 0) :=
  ⟨rfl, rfl, by decide⟩

/-- C10 (amended): when the library is initialized, both capture entry
points zero the caller frame (null pixel pointer and zero
width/height/stride/timestamp, the resized variant additionally zeroing the
original-size fields) before the registry lookup, so on an unknown-session
or timeout failure the frame comes back in exactly that zeroed form and a
subsequent `ReleaseFrame` on it is a safe no-op; when the library is
uninitialized the functions return before touching the frame, leaving the
caller structure unmodified. -/
theorem frame_zeroed_on_notfound_timeout (g : GlobalState) (sid : Int)
    (f : BFrame) (allocOk : Bool) (tW tH t : Int) :
    (g.initialized = true → findSession g sid = none →
      BaketaCapture_CaptureFrame g sid (some f) allocOk t =
        (BAKETA_CAPTURE_ERROR_NOT_FOUND,
          { g with lastError := "Session not found" },
          some { f with bgraData := none, width := 0, height := 0
                        stride := 0, timestamp := 0 }) ∧
      BaketaCapture_CaptureFrameResized g sid (some f) tW tH allocOk t =
        (BAKETA_CAPTURE_ERROR_NOT_FOUND,
          { g with lastError := "Session not found" },
          some { f with bgraData := none, width := 0, height := 0
                        stride := 0, timestamp := 0, originalWidth := 0
                        originalHeight := 0 })) ∧
    (∀ s, g.initialized = true → findSession g sid = some s →
      s.initialized = true → s.hasCaptureSession = true →
      s.frameReady = false →
      (BaketaCapture_CaptureFrame g sid (some f) allocOk t).1 =
        BAKETA_CAPTURE_ERROR_DEVICE ∧
      (BaketaCapture_CaptureFrame g sid (some f) allocOk t).2.2 =
        some { f with bgraData := none, width := 0, height := 0
                      stride := 0, timestamp := 0 } ∧
      (BaketaCapture_CaptureFrameResized g sid (some f) tW tH allocOk t).1 =
        BAKETA_CAPTURE_ERROR_DEVICE ∧
      (BaketaCapture_CaptureFrameResized g sid (some f) tW tH allocOk
          t).2.2 =
        some { f with bgraData := none, width := 0, height := 0
                      stride := 0, timestamp := 0, originalWidth := 0
                      originalHeight := 0 }) ∧
    (g.initialized = false →
      BaketaCapture_CaptureFrame g sid (some f) allocOk t =
        (BAKETA_CAPTURE_ERROR_DEVICE,
          { g with lastError := "Library not initialized" }, some f)) ∧
    (∀ f0 : BFrame, f0.bgraData = none →
      BaketaCapture_ReleaseFrame (some f0) = (some f0, none)) := by
  refine ⟨?_, ?_, ?_, ?_⟩
  · intro hg hnone
    constructor
    · simp [BaketaCapture_CaptureFrame, hg, hnone]
    · simp [BaketaCapture_CaptureFrameResized, hg, hnone]
  · intro s hg hfind hs1 hs2 hs3
    have htime : ∀ f4 : BFrame, sessionCaptureFrame s allocOk f4 =
        (SessionResult.errTimeout, s, f4) := by
      intro f4
      simp [sessionCaptureFrame, hs1, hs2, hs3]
    have htimeR : ∀ f4 : BFrame,
        sessionCaptureFrameResizedV2 s tW tH allocOk f4 =
          (SessionResult.errTimeout, s, f4) := by
      intro f4
      by_cases hz : tW ≤ 0 ∨ tH ≤ 0
      · unfold sessionCaptureFrameResizedV2
        simp only [hs1, hs2, Bool.not_true, Bool.false_eq_true, if_false]
        rw [if_pos hz]
        exact htime f4
      · unfold sessionCaptureFrameResizedV2
        simp only [hs1, hs2, hs3, Bool.not_true, Bool.false_eq_true,
          if_false, if_neg hz, Bool.not_false, if_true]
    unfold BaketaCapture_CaptureFrame BaketaCapture_CaptureFrameResized
    simp only [hg, Bool.not_true, Bool.false_eq_true, if_false, hfind]
    rw [htime, htimeR]
    simp
  · intro hg
    unfold BaketaCapture_CaptureFrame
    simp [hg]
  · intro f0 h0
    simp [BaketaCapture_ReleaseFrame, h0]

/-- Witness for C10 (amended): a timed-out capture on a registered session
returns the device status with the frame in exactly the zeroed form. -/
theorem frame_zeroed_on_notfound_timeout_witness :
    (BaketaCapture_CaptureFrame gNoFrame 1
        (some { zeroBFrame with width := 9 }) true 50).1 =
      BAKETA_CAPTURE_ERROR_DEVICE ∧
    (BaketaCapture_CaptureFrame gNoFrame 1
        (some { zeroBFrame with width := 9 }) true 50).2.2 =
      some { { zeroBFrame with width := 9 } with
             bgraData := none, width := 0, height := 0, stride := 0
             timestamp := 0 } :=
  ⟨((frame_zeroed_on_notfound_timeout gNoFrame 1
      { zeroBFrame with width := 9 } true 0 0 50).2.1 sessNoFrame rfl rfl
      rfl rfl rfl).1,
    ((frame_zeroed_on_notfound_timeout gNoFrame 1
      { zeroBFrame with width := 9 } true 0 0 50).2.1 sessNoFrame rfl rfl
      rfl rfl rfl).2.1⟩

/-! ### C9 -/

/-- A signed 32-bit value already in range is fixed by `wrap32`. -/
theorem wrap32_eq_self (x : Int) (h1 : -2 ^ 31 ≤ x) (h2 : x ≤ 2 ^ 31 - 1) :
    wrap32 x = x := by
  unfold wrap32
  omega

/-- `wrap32` only depends on its argument modulo `2^32`. -/
theorem wrap32_add_left (x y : Int) :
    wrap32 (wrap32 x + y) = wrap32 (x + y) := by
  unfold wrap32
  omega

/-- `wrap32` is idempotent. -/
theorem wrap32_idem (x : Int) : wrap32 (wrap32 x) = wrap32 x := by
  unfold wrap32
  omega

/-- `countCreates` over a cons. -/
theorem countCreates_cons (op : RegOp) (rest : List RegOp) :
    countCreates (op :: rest) =
      countCreates [op] + countCreates rest := by
  cases op <;> simp [countCreates, List.countP_cons] <;> omega

/-- One registry step, while the counter is far enough from the wrap point:
the counter never decreases, grows by at most one `CreateSession`, and a
step that returns an id returns exactly the pre-step counter value while
bumping the counter by one. -/
theorem applyRegOp_counter (g : GlobalState) (op : RegOp)
    (hlo : 1 ≤ g.nextSessionId)
    (hhi : g.nextSessionId + (countCreates [op] : Int) ≤ 2 ^ 31 - 1) :
    g.nextSessionId ≤ (applyRegOp g op).1.nextSessionId ∧
    (applyRegOp g op).1.nextSessionId ≤
      g.nextSessionId + (countCreates [op] : Int) ∧
    (∀ i, (applyRegOp g op).2 = some i →
      i = g.nextSessionId ∧
      (applyRegOp g op).1.nextSessionId = g.nextSessionId + 1) := by
  cases op with
  | release id => simp [applyRegOp, BaketaCapture_ReleaseSession, countCreates]
  | create hv io s =>
      simp [countCreates, List.countP_cons] at hhi
      by_cases h1 : g.initialized <;> by_cases h2 : hv <;>
        by_cases h3 : io <;>
        simp [applyRegOp, BaketaCapture_CreateSession, countCreates,
          List.countP_cons, wrap32, h1, h2, h3] <;>
        omega

/-- Invariant of the id counter: over any operation sequence whose
`CreateSession` count keeps the signed 32-bit counter away from its wrap
point, the returned ids are strictly increasing in call order and every
returned id is at least the starting counter value. -/
theorem runRegOps_invariant (ops : List RegOp) :
    ∀ g : GlobalState, 1 ≤ g.nextSessionId →
      g.nextSessionId + (countCreates ops : Int) ≤ 2 ^ 31 - 1 →
      List.Sorted (· < ·) (runRegOps g ops).2 ∧
      (∀ i ∈ (runRegOps g ops).2, g.nextSessionId ≤ i) := by
  induction ops with
  | nil =>
      intro g _ _
      simp [runRegOps]
  | cons op rest ih =>
      intro g hlo hbound
      rw [countCreates_cons] at hbound
      have hc := applyRegOp_counter g op hlo (by
        have : (0 : Int) ≤ (countCreates rest : Int) := Int.natCast_nonneg _
        omega)
      have h := ih (applyRegOp g op).1 (by omega) (by omega)
      simp only [runRegOps]
      rcases ho : (applyRegOp g op).2 with _ | i
      · simp only [Option.toList, List.nil_append]
        exact ⟨h.1, fun i hi => le_trans hc.1 (h.2 i hi)⟩
      · have hi := hc.2.2 i ho
        simp only [Option.toList, List.cons_append, List.nil_append,
          List.sorted_cons]
        refine ⟨⟨?_, h.1⟩, ?_⟩
        · intro b hb
          have hbge := h.2 b hb
          omega
        · intro j hj
          rcases List.mem_cons.mp hj with hh | hh
          · omega
          · have := h.2 j hh
            omega

/-- Every id returned by a run of creations from a `true`-initialized state
is the wrapped offset of the starting counter: the counter really cycles
through `wrap32`. -/
theorem runRegOps_replicate_create (s : SessionState) :
    ∀ (n : Nat) (g : GlobalState), g.initialized = true →
      wrap32 g.nextSessionId = g.nextSessionId →
      (runRegOps g (List.replicate n (RegOp.create true true s))).2 =
        (List.range n).map
          (fun (k : Nat) => wrap32 (g.nextSessionId + (k : Int))) := by
  intro n
  induction n with
  | zero =>
      intro g _ _
      simp [runRegOps]
  | succ m ih =>
      intro g hg hwrap
      rw [List.replicate_succ]
      simp only [runRegOps, applyRegOp, BaketaCapture_CreateSession, hg,
        Bool.not_true, Bool.false_eq_true, if_false, Bool.not_false, if_true]
      simp only [Option.toList, List.cons_append, List.nil_append]
      rw [ih { initialized := true
               sessions := (g.nextSessionId, s) :: g.sessions
               nextSessionId := wrap32 (g.nextSessionId + 1)
               lastError := "" } rfl (wrap32_idem _)]
      rw [List.range_succ_eq_map, List.map_cons, List.map_map]
      refine congrArg₂ _ ?_ (List.map_congr_left ?_)
      · rw [Int.natCast_zero, add_zero, hwrap]
      · intro k _
        simp only [Function.comp]
        rw [wrap32_add_left]
        congr 1
        push_cast
        ring

/-- C9 counterexample: the id counter is a signed 32-bit `fetch_add`, so over
`2^32 + 1` successful creations the ids cycle: the first and the last
returned id are both 1 — ids are reused and the sequence is not strictly
increasing, refuting the unbounded claim. -/
theorem session_id_wraparound_counterexample :
    ¬ List.Pairwise (· ≠ ·)
      (runRegOps gInit
        (List.replicate (2 ^ 32 + 1)
          (RegOp.create true true sessNoFrame))).2 ∧
    ¬ List.Sorted (· < ·)
      (runRegOps gInit
        (List.replicate (2 ^ 32 + 1)
          (RegOp.create true true sessNoFrame))).2 := by
  have hids := runRegOps_replicate_create sessNoFrame (2 ^ 32 + 1) gInit rfl
    (by decide)
  have hlen : (runRegOps gInit
      (List.replicate (2 ^ 32 + 1)
        (RegOp.create true true sessNoFrame))).2.length = 2 ^ 32 + 1 := by
    rw [hids]
    simp
  have hnotpw : ¬ List.Pairwise (· ≠ ·)
      (runRegOps gInit
        (List.replicate (2 ^ 32 + 1)
          (RegOp.create true true sessNoFrame))).2 := by
    intro hpw
    have h2 := List.pairwise_iff_getElem.mp hpw 0 (2 ^ 32)
      (by omega) (by omega) (by norm_num)
    apply h2
    rw [List.getElem_of_eq hids, List.getElem_of_eq hids,
      List.getElem_map, List.getElem_map, List.getElem_range,
      List.getElem_range]
    decide
  refine ⟨hnotpw, fun hs => hnotpw (hs.imp (fun hlt => ne_of_lt hlt))⟩

/-- C9 (amended): starting from the post-`Initialize` state (counter at 1),
any sequence of `CreateSession`/`ReleaseSession` calls containing at most
`2^31 - 2` creations — i.e. before the signed 32-bit counter can wrap —
returns strictly increasing session ids (each new id strictly greater than
every previously returned one, so ids are not reused even after a release),
all ids at least 1; the calls being interleavings of whole atomic steps
around the `fetch_add`, no two creations can observe the same id.  Once the
counter wraps (beyond `2^31 - 1` creations) ids repeat, as the
counterexample shows. -/
theorem session_ids_strictly_increasing (ops : List RegOp)
    (hops : countCreates ops ≤ 2 ^ 31 - 2) :
    List.Sorted (· < ·) (runRegOps gInit ops).2 ∧
    (∀ i ∈ (runRegOps gInit ops).2, 1 ≤ i) ∧
    List.Pairwise (· ≠ ·) (runRegOps gInit ops).2 := by
  have h := runRegOps_invariant ops gInit (by decide) (by
    have hg1 : gInit.nextSessionId = 1 := rfl
    omega)
  exact ⟨h.1, h.2, h.1.imp (fun hlt => ne_of_lt hlt)⟩

/-- Witness for C9: create, release the first session, create again — two
creations, far below the wrap bound; the returned ids are `[1, 2]`, strictly
increasing with no reuse of 1. -/
theorem session_ids_strictly_increasing_witness :
    (runRegOps gInit [RegOp.create true true sessNoFrame, RegOp.release 1,
        RegOp.create true true sessNoFrame]).2 = [1, 2] ∧
    List.Sorted (· < ·) (runRegOps gInit [RegOp.create true true sessNoFrame,
        RegOp.release 1, RegOp.create true true sessNoFrame]).2 :=
  ⟨rfl, (session_ids_strictly_increasing [RegOp.create true true sessNoFrame,
      RegOp.release 1, RegOp.create true true sessNoFrame]
      (by norm_num [countCreates, List.countP_cons])).1⟩

/-! ### C6 -/

/-- Full case analysis of the bind-retry loop on its six Boolean outcomes. -/
theorem createCaptureItem_char (att reval : Nat → Bool) :
    createCaptureItem true att reval =
      if att 0 then ([.attempt 0 true], true)
      else if reval 0 then
        if att 1 then
          ([.attempt 0 false, .sleep 100, .revalidate 0 true,
            .attempt 1 true], true)
        else if reval 1 then
          if att 2 then
            ([.attempt 0 false, .sleep 100, .revalidate 0 true,
              .attempt 1 false, .sleep 100, .revalidate 1 true,
              .attempt 2 true], true)
          else
            ([.attempt 0 false, .sleep 100, .revalidate 0 true,
              .attempt 1 false, .sleep 100, .revalidate 1 true,
              .attempt 2 false], false)
        else
          ([.attempt 0 false, .sleep 100, .revalidate 0 true,
            .attempt 1 false, .sleep 100, .revalidate 1 false], false)
      else ([.attempt 0 false, .sleep 100, .revalidate 0 false], false) := by
  by_cases a0 : att 0 <;> by_cases r0 : reval 0 <;> by_cases a1 : att 1 <;>
    by_cases r1 : reval 1 <;> by_cases a2 : att 2 <;>
    simp [createCaptureItem, bindAttempts, maxRetries, retryDelayMs,
      a0, r0, a1, r1, a2]

/-- C6: in `CreateCaptureItem` the platform bind call is attempted at most 3
times; every delay between events is the 100 ms retry delay; a failed
re-validation aborts the whole sequence with failure, with no bind attempt
after it; and every retry attempt (index ≥ 1) is preceded by a 100 ms delay
and a successful re-validation of the window state. -/
theorem createCaptureItem_retry_spec (v : Bool) (att reval : Nat → Bool) :
    (createCaptureItem v att reval).1.countP isAttempt ≤ 3 ∧
    (∀ ms, ItemEvent.sleep ms ∈ (createCaptureItem v att reval).1 →
      ms = 100) ∧
    (∀ i, ItemEvent.revalidate i false ∈ (createCaptureItem v att reval).1 →
      (createCaptureItem v att reval).2 = false ∧
      ∀ j b, ItemEvent.attempt j b ∈ (createCaptureItem v att reval).1 →
        j ≤ i) ∧
    (∀ i b, ItemEvent.attempt i b ∈ (createCaptureItem v att reval).1 →
      i < 3 ∧ (1 ≤ i →
        ItemEvent.sleep 100 ∈ (createCaptureItem v att reval).1 ∧
        ItemEvent.revalidate (i - 1) true ∈
          (createCaptureItem v att reval).1)) := by
  cases v
  · simp [createCaptureItem]
  · rw [createCaptureItem_char]
    by_cases a0 : att 0 <;> by_cases r0 : reval 0 <;> by_cases a1 : att 1 <;>
      by_cases r1 : reval 1 <;> by_cases a2 : att 2 <;>
      simp [a0, r0, a1, r1, a2, isAttempt, List.countP_cons] <;>
      omega

/-- Witness for C6: with every bind attempt failing and every re-validation
passing, the loop performs at most 3 attempts and the retry of index 1 was
preceded by the 100 ms delay and a successful re-validation. -/
theorem createCaptureItem_retry_spec_witness :
    (createCaptureItem true (fun _ => false) (fun _ => true)).1.countP
      isAttempt ≤ 3 ∧
    ItemEvent.sleep 100 ∈
      (createCaptureItem true (fun _ => false) (fun _ => true)).1 ∧
    ItemEvent.revalidate 0 true ∈
      (createCaptureItem true (fun _ => false) (fun _ => true)).1 :=
  ⟨(createCaptureItem_retry_spec true (fun _ => false) (fun _ => true)).1,
    (((createCaptureItem_retry_spec true (fun _ => false)
        (fun _ => true)).2.2.2 1 false (by decide)).2 (by decide)).1,
    (((createCaptureItem_retry_spec true (fun _ => false)
        (fun _ => true)).2.2.2 1 false (by decide)).2 (by decide)).2⟩

/-! ### C4 -/

/-- C4: a successful `BaketaCapture_CaptureFrameResized` call that actually
performed a resize hands the caller both the pre-resize source dimensions
(in `originalWidth`/`originalHeight`) and the post-resize output dimensions
(in `width`/`height`). -/
theorem captureFrameResized_reports_both_dims (g : GlobalState) (sid : Int)
    (f : BFrame) (tW tH t : Int) (s : SessionState)
    (hg : g.initialized = true) (hfind : findSession g sid = some s)
    (hs1 : s.initialized = true) (hs2 : s.hasCaptureSession = true)
    (hs3 : s.frameReady = true) (htW : 1 ≤ tW) (htH : 1 ≤ tH)
    (hbig : ¬(s.latestFrame.width ≤ tW.toNat ∧
      s.latestFrame.height ≤ tH.toNat)) :
    (BaketaCapture_CaptureFrameResized g sid (some f) tW tH true t).1 =
      BAKETA_CAPTURE_SUCCESS ∧
    (BaketaCapture_CaptureFrameResized g sid (some f) tW tH true t).2.2.map
        (fun fr =>
          (fr.originalWidth, fr.originalHeight, fr.width, fr.height)) =
      some ((s.latestFrame.width : Int), (s.latestFrame.height : Int),
        ((finalSize s.latestFrame.width s.latestFrame.height tW.toNat
            tH.toNat).1 : Int),
        ((finalSize s.latestFrame.width s.latestFrame.height tW.toNat
            tH.toNat).2 : Int)) := by
  have hz : ¬(tW ≤ 0 ∨ tH ≤ 0) := by omega
  unfold BaketaCapture_CaptureFrameResized
  simp only [hg, Bool.not_true, Bool.false_eq_true, if_false, hfind]
  unfold sessionCaptureFrameResizedV2
  simp only [hs1, hs2, hs3, Bool.not_true, Bool.false_eq_true, if_false,
    if_neg hz, Bool.not_false, if_true]
  unfold resizeAndConvertTextureToBGRA
  simp [hbig]

/-- Witness for C4 at the specification example scenario: capturing the
1920×1080 frame with target 640×480 succeeds and reports
`originalWidth=1920, originalHeight=1080, width=640, height=360`. -/
theorem captureFrameResized_reports_both_dims_witness :
    (BaketaCapture_CaptureFrameResized gReadyFullHD 1 (some zeroBFrame) 640
        480 true 2000).1 = BAKETA_CAPTURE_SUCCESS ∧
    (BaketaCapture_CaptureFrameResized gReadyFullHD 1 (some zeroBFrame) 640
        480 true 2000).2.2.map
        (fun fr =>
          (fr.originalWidth, fr.originalHeight, fr.width, fr.height)) =
      some (1920, 1080, 640, 360) := by
  have h := captureFrameResized_reports_both_dims gReadyFullHD 1 zeroBFrame
    640 480 2000 sessReadyFullHD rfl rfl rfl rfl rfl (by decide) (by decide)
    (by decide)
  have hfs : finalSize 1920 1080 640 480 = (640, 360) := by
    unfold finalSize cIntTrunc
    norm_num
    rfl
  have hw : sessReadyFullHD.latestFrame.width = 1920 := rfl
  have hh : sessReadyFullHD.latestFrame.height = 1080 := rfl
  have h640 : (640 : Int).toNat = 640 := rfl
  have h480 : (480 : Int).toNat = 480 := rfl
  refine ⟨h.1, ?_⟩
  rw [h.2, hw, hh, h640, h480, hfs]
  norm_num
